import Mathlib

/-!
Verification of the convergence control core of the `otter` autoscaling
service against its natural-language specification.

The repository ships only the test modules of the subsystems under
study (`otter/test/convergence/test_service.py`, `otter/test/test_cloud_client.py`,
`otter/test/log/test_spec.py`, `otter/integration/tests/test_lbsh.py`);
the implementation modules themselves (`otter/convergence/service.py`,
`otter/cloud_client.py`, `otter/log/spec.py`) are not part of the source
tree.  Every operation below is therefore modelled from the
specification's description of that operation, and its behaviour is
cross-checked against the concrete inputs and expected outputs recorded
in the shipped test modules.
-/

namespace Otter

/-! ## Data model (spec §3)

Server lifecycle states, CLB descriptions, CLB nodes and Nova servers,
as declared in `otter.convergence.model` and described in spec §3. -/

/-- Server lifecycle state, from {BUILD, ACTIVE, ERROR, DELETED, UNKNOWN}. -/
inductive ServerState where
  | BUILD
  | ACTIVE
  | ERROR
  | DELETED
  | UNKNOWN
deriving DecidableEq, Repr

/-- Node condition of a CLB description: ENABLED, DISABLED or DRAINING. -/
inductive NodeCondition where
  | ENABLED
  | DISABLED
  | DRAINING
deriving DecidableEq, Repr

/-- Node type of a CLB description: PRIMARY or SECONDARY. -/
inductive NodeType where
  | PRIMARY
  | SECONDARY
deriving DecidableEq, Repr

/-- A CLB description: load-balancer id, port, weight, condition, type.
Defaults mirror `CLBDescription(lb_id=…, port=…)` in the tests:
weight 1, condition ENABLED, type PRIMARY.  Two descriptions are
equivalent iff all fields are equal (spec §3), which is structural
equality here. -/
structure CLBDescription where
  lb_id : String
  port : Nat
  weight : Nat := 1
  condition : NodeCondition := NodeCondition.ENABLED
  nodeType : NodeType := NodeType.PRIMARY
deriving DecidableEq, Repr

/-- An observed CLB node: opaque node id, description, address. -/
structure CLBNode where
  node_id : String
  description : CLBDescription
  address : String
deriving DecidableEq, Repr

/-- A Nova server: id, lifecycle state, creation timestamp, image and
flavor ids, optional servicenet address, and the mapping from LB id to
the list of desired descriptions (here an association list, mirroring
the `pmap` of lists used by the source). -/
structure NovaServer where
  id : String
  state : ServerState
  created : Nat := 0
  image_id : String := "image"
  flavor_id : String := "flavor"
  servicenet_address : Option String := none
  desired_lbs : List (String × List CLBDescription) := []
deriving DecidableEq, Repr

/-! ## `determine_active` (spec §4.3 step 1)

Modelled from the spec: `otter.convergence.service.determine_active` is
absent from the source tree.  Spec: "A server is active iff it is in
provider state ACTIVE and for every desired LB description it has, a
matching observed CLB node exists at its address.  Servers in multiple
LBs count once." -/

/-- Does some observed node sit at the server's servicenet address and
carry exactly the desired description? -/
def descMet (lb_nodes : List CLBNode) (s : NovaServer) (d : CLBDescription) : Bool :=
  lb_nodes.any (fun n => s.servicenet_address == some n.address && d == n.description)

/-- `determine_active`: filter the observed servers down to the active
ones, keeping input order. -/
def determine_active (servers : List NovaServer) (lb_nodes : List CLBNode) :
    List NovaServer :=
  servers.filter (fun s =>
    s.state == ServerState.ACTIVE &&
    s.desired_lbs.all (fun p => p.2.all (fun d => descMet lb_nodes s d)))

/-! ## `non_concurrently` (spec §4.5 item 3, §7)

Modelled from the spec: `otter.convergence.service.non_concurrently` is
absent from the source tree.  The per-group single-flight lock set is a
process-local set updated through the scoped-ref primitive; here the
lock set is explicit state.  The wrapped effect is a function of the
lock set visible while it runs (so that "the key is held during the
effect" is observable), returning either a value or an exception. -/

/-- Exceptions of the effect engine.  `firstError` is the wrapper that
`parallel` puts around the first failure of its constituents. -/
inductive Exn where
  | runtimeError (msg : String)
  | firstError (e : Exn)
  | other (name : String)
deriving DecidableEq, Repr

/-- Result of `non_concurrently`: the lock set afterwards, the log
messages emitted, and the outcome (`none` when the key was already
held). -/
def non_concurrently {α : Type} (locks : List String) (key : String)
    (eff : List String → Except Exn α) :
    List String × List String × Except Exn (Option α) :=
  if key ∈ locks then
    (locks, ["already-converging"], Except.ok none)
  else
    let acquired := key :: locks
    match eff acquired with
    | Except.ok a => (acquired.erase key, [], Except.ok (some a))
    | Except.error e => (acquired.erase key, [], Except.error e)

/-! ## SHA-1 and the bucket function (spec §4.4, §8 scenario 5)

The partitioner's bucket function is a stable hash mod the bucket
count; spec §8 scenario 5 fixes the hash to SHA-1 ("bucket function
`sha1(tenant) mod 10` where `sha1("00") mod 10 = 6` and
`sha1("01") mod 10 = 1`"), which matches the comment in
`ConvergerTests.test_get_my_divergent_groups`.  SHA-1 is embedded below
over natural numbers, with 32-bit wrap-around made explicit. -/

/-- Rotate the 32-bit word `x` left by `n` bits. -/
def rotl32 (n x : Nat) : Nat :=
  ((x <<< n) ||| (x >>> (32 - n))) % 4294967296

/-- Big-endian byte list of width `n` for the value `v`. -/
def beBytes (n v : Nat) : List Nat :=
  (List.range n).map (fun i => v / 256 ^ (n - 1 - i) % 256)

/-- SHA-1 padding: append `0x80`, zero bytes to 56 mod 64, then the
bit length on 8 big-endian bytes. -/
def sha1Pad (m : List Nat) : List Nat :=
  let zeros := (56 + 64 - (m.length + 1) % 64) % 64
  m ++ [128] ++ List.replicate zeros 0 ++ beBytes 8 (8 * m.length)

/-- Pack bytes into 32-bit big-endian words. -/
def toWords32 : List Nat → List Nat
  | b0 :: b1 :: b2 :: b3 :: rest =>
      (((b0 * 256 + b1) * 256 + b2) * 256 + b3) :: toWords32 rest
  | _ => []

/-- Extend a block's 16 words by one more schedule word. -/
def sha1ExtendStep (ws : List Nat) : List Nat :=
  let l := ws.length
  ws ++ [rotl32 1 (ws.getD (l - 3) 0 ^^^ ws.getD (l - 8) 0 ^^^
                   ws.getD (l - 14) 0 ^^^ ws.getD (l - 16) 0)]

/-- Apply `sha1ExtendStep` `n` times (64 times turns 16 words into the
80-word message schedule). -/
def sha1Extend : Nat → List Nat → List Nat
  | 0, ws => ws
  | n + 1, ws => sha1Extend n (sha1ExtendStep ws)

/-- The 32-bit complement. -/
def not32 (x : Nat) : Nat := x ^^^ 4294967295

/-- One compression round at index `i` (0-based) on state `(a,b,c,d,e)`
consuming schedule word `w`. -/
def sha1Round (i : Nat) (st : Nat × Nat × Nat × Nat × Nat) (w : Nat) :
    Nat × Nat × Nat × Nat × Nat :=
  let (a, b, c, d, e) := st
  let f :=
    if i < 20 then (b &&& c) ||| (not32 b &&& d)
    else if i < 40 then b ^^^ c ^^^ d
    else if i < 60 then (b &&& c) ||| (b &&& d) ||| (c &&& d)
    else b ^^^ c ^^^ d
  let k :=
    if i < 20 then 1518500249
    else if i < 40 then 1859775393
    else if i < 60 then 2400959708
    else 3395469782
  let temp := (rotl32 5 a + f + e + k + w) % 4294967296
  (temp, a, rotl32 30 b, c, d)

/-- Run the 80 compression rounds over the schedule words. -/
def sha1Rounds (i : Nat) (st : Nat × Nat × Nat × Nat × Nat) :
    List Nat → Nat × Nat × Nat × Nat × Nat
  | [] => st
  | w :: ws => sha1Rounds (i + 1) (sha1Round i st w) ws

/-- Process 16-word blocks, updating the five hash words. -/
def sha1Blocks (hs : Nat × Nat × Nat × Nat × Nat) :
    List Nat → Nat × Nat × Nat × Nat × Nat
  | w0 :: w1 :: w2 :: w3 :: w4 :: w5 :: w6 :: w7 ::
    w8 :: w9 :: w10 :: w11 :: w12 :: w13 :: w14 :: w15 :: rest =>
      let (h0, h1, h2, h3, h4) := hs
      let ws := sha1Extend 64
        [w0, w1, w2, w3, w4, w5, w6, w7, w8, w9, w10, w11, w12, w13, w14, w15]
      let (a, b, c, d, e) := sha1Rounds 0 (h0, h1, h2, h3, h4) ws
      sha1Blocks ((h0 + a) % 4294967296, (h1 + b) % 4294967296,
                  (h2 + c) % 4294967296, (h3 + d) % 4294967296,
                  (h4 + e) % 4294967296) rest
  | _ => hs

/-- SHA-1 digest of a byte list, as the 160-bit natural number that the
hex digest denotes. -/
def sha1Nat (m : List Nat) : Nat :=
  let (h0, h1, h2, h3, h4) :=
    sha1Blocks (1732584193, 4023233417, 2562383102, 271733878, 3285377520)
      (toWords32 (sha1Pad m))
  ((((h0 * 4294967296 + h1) * 4294967296 + h2) * 4294967296 + h3)
     * 4294967296 + h4)

/-- Bytes of an (ASCII) string. -/
def strBytes (s : String) : List Nat := s.data.map Char.toNat

/-- The partitioner's bucket function: `sha1(s) mod 10` (ten buckets by
default). -/
def bucket_of (s : String) : Nat := sha1Nat (strBytes s) % 10

/-! ## Divergence registry listing (spec §4.4)

Modelled from the spec: `Converger.get_my_divergent_groups` is absent
from the source tree.  Registry children are named
`<tenant>_<group>` (split at the first underscore) and carry a version;
a listing is an association list of `(name, version)` pairs in snapshot
order.  The listing is filtered down to the entries whose bucket lies
in the worker's bucket set, each annotated with its read version, in
listing order. -/

/-- Split a child name at the first underscore into
`(tenant_id, group_id)`, mirroring `name.split('_', 1)`. -/
def splitChild (s : String) : String × String :=
  let cs := s.data
  let t := cs.takeWhile (fun c => c ≠ '_')
  (String.mk t, String.mk (cs.drop (t.length + 1)))

/-- A divergent-group record as returned to the converger. -/
structure DivergentGroup where
  tenant_id : String
  group_id : String
  version : Nat
deriving DecidableEq, Repr

/-- Build the record for one registry child. -/
def childInfo (c : String × Nat) : DivergentGroup :=
  { tenant_id := (splitChild c.1).1,
    group_id := (splitChild c.1).2,
    version := c.2 }

/-- `get_my_divergent_groups`: keep the children whose tenant's bucket
(`sha1(tenant_id) mod 10`) is in `buckets`, in listing order. -/
def get_my_divergent_groups (buckets : List Nat)
    (children : List (String × Nat)) : List DivergentGroup :=
  (children.map childInfo).filter (fun e => bucket_of e.tenant_id ∈ buckets)

/-- The bucket function as the claim words it: the hash of the
concatenation `tenant_id + group_id`, mod 10. -/
def bucket_of_claim (tenant_id group_id : String) : Nat :=
  sha1Nat (strBytes (tenant_id ++ group_id)) % 10

/-- The listing filter as the claim words it: bucket index computed
from `tenant_id + group_id`. -/
def get_my_divergent_groups_claim (buckets : List Nat)
    (children : List (String × Nat)) : List DivergentGroup :=
  (children.map childInfo).filter
    (fun e => bucket_of_claim e.tenant_id e.group_id ∈ buckets)

/-- The registry listing used by `test_get_my_divergent_groups`. -/
def testChildren : List (String × Nat) :=
  [("00_gr1", 0), ("00_gr2", 3), ("01_gr3", 5)]

/-! ## `execute_convergence` (spec §4.1c, §4.5, §8 scenarios 3–4)

Modelled from the spec: `otter.convergence.service.execute_convergence`
is absent from the source tree.  The group's configuration fetch
(`GetScalingGroupInfo`) and the convergence-data fetch are gathered
with `parallel`, whose composite failure is a `FirstError` wrapper
around the first constituent failure; the converger unwraps it so that
callers see the raw exception class (spec §4.1c, §4.5).  Then the step
list is planned, the group's active map is updated from the observed
servers, and the steps are executed (again in parallel, with the same
unwrapping); the result is the list of step results.  The planner and
the per-step executor are parameters, as the data-fetch function is in
the source's own signature. -/

/-- `parallel` on the two gathered effects: fails with the first
failure wrapped in `FirstError`. -/
def parallelPair {α β : Type} (a : Except Exn α) (b : Except Exn β) :
    Except Exn (α × β) :=
  match a, b with
  | Except.error e, _ => Except.error (Exn.firstError e)
  | Except.ok _, Except.error e => Except.error (Exn.firstError e)
  | Except.ok x, Except.ok y => Except.ok (x, y)

/-- `parallel` on a list of step effects: the results in input order,
or the first failure wrapped in `FirstError`. -/
def parallelList {α : Type} : List (Except Exn α) → Except Exn (List α)
  | [] => Except.ok []
  | Except.error e :: _ => Except.error (Exn.firstError e)
  | Except.ok x :: rest =>
      match parallelList rest with
      | Except.error e => Except.error e
      | Except.ok xs => Except.ok (x :: xs)

/-- Strip one `FirstError` wrapper, exposing the underlying exception. -/
def unwrapFirstError : Exn → Exn
  | Exn.firstError e => e
  | e => e

/-- The compact server JSON stored in the group's active map. -/
structure ServerJson where
  id : String
deriving DecidableEq, Repr

/-- `server_to_json`: the compact JSON for one server. -/
def server_to_json (s : NovaServer) : ServerJson := { id := s.id }

/-- The active map written by `ModifyGroupState`: server id to compact
JSON, for each active server. -/
def activeMapOf (servers : List NovaServer) (lb_nodes : List CLBNode) :
    List (String × ServerJson) :=
  (determine_active servers lb_nodes).map (fun s => (s.id, server_to_json s))

/-- `execute_convergence`, with `GroupInfo` the scaling-group
information type (opaque here), `plan` the planner, and `execStep` the
per-step executor.  Returns the step results (empty when no steps were
planned) paired with the active map written to the group state. -/
def execute_convergence {GroupInfo Step StepResult : Type}
    (plan : GroupInfo → List NovaServer → List CLBNode → List Step)
    (execStep : Step → Except Exn StepResult)
    (gsgi : Except Exn GroupInfo)
    (gacd : Except Exn (List NovaServer × List CLBNode)) :
    Except Exn (List StepResult × List (String × ServerJson)) :=
  match parallelPair gsgi gacd with
  | Except.error e => Except.error (unwrapFirstError e)
  | Except.ok (gi, (servers, lb_nodes)) =>
      let active := activeMapOf servers lb_nodes
      let steps := plan gi servers lb_nodes
      match parallelList (steps.map execStep) with
      | Except.error e => Except.error (unwrapFirstError e)
      | Except.ok results => Except.ok (results, active)

/-! ## Cloud client (spec §4.2)

Modelled from the spec: `otter.cloud_client.concretize_service_request`
is absent from the source tree.  After authentication and URL binding,
the response handling is: (4) a status in the reauth codes invalidates
the token and fails with `APIError`; (5) a status failing the success
predicate fails with `APIError` carrying the raw body with no JSON
parsing regardless of `json_response`; (6) on success the body is
parsed as JSON iff `json_response`.  On `APIError`, the error parser
registered for the request's service type (if any) is consulted; it may
raise a service-specific exception, otherwise the original `APIError`
is re-raised.  The JSON parser is a parameter so that "no parsing is
attempted" is expressible as independence from it. -/

/-- Service types consumed by the core. -/
inductive ServiceType where
  | CLOUD_SERVERS
  | CLOUD_LOAD_BALANCERS
deriving DecidableEq, Repr

/-- Exceptions raised by the cloud client.  `exn name` stands for a
service-specific exception class such as the tests' `_NovaError`. -/
inductive CCError where
  | apiError (code : Nat) (body : String)
  | exn (name : String)
  | jsonError (body : String)
deriving DecidableEq, Repr

/-- A service request, after `service_request` has populated defaults:
reauth codes `(401, 403)`, success predicate `has_code(200)`,
`json_response` true. -/
structure ServiceRequest where
  service_type : ServiceType
  method : String
  url : String
  reauth_codes : List Nat := [401, 403]
  success_pred : Nat → Bool := fun c => c == 200
  json_response : Bool := true

/-- An HTTP response: status code and raw body. -/
structure Response where
  code : Nat
  body : String
deriving DecidableEq, Repr

/-- An error parser: given the `APIError`'s code and body, `some e`
raises the service-specific exception `e`, `none` returns without
raising. -/
def ErrorParser : Type := Nat → String → Option CCError

/-- Look up the parser registered for a service type. -/
def lookupParser (parsers : List (ServiceType × ErrorParser))
    (st : ServiceType) : Option ErrorParser :=
  (parsers.find? (fun p => p.1 == st)).map (fun p => p.2)

/-- Response handling of `concretize_service_request` (steps 4–6 of
spec §4.2), before error parsing.  `parse` is the JSON parser; a body
it cannot parse fails the effect as `jsonError`. -/
def handleResponse {J : Type} (parse : String → Option J)
    (req : ServiceRequest) (resp : Response) :
    Except CCError (Response × (String ⊕ J)) :=
  if resp.code ∈ req.reauth_codes then
    Except.error (CCError.apiError resp.code resp.body)
  else if !req.success_pred resp.code then
    Except.error (CCError.apiError resp.code resp.body)
  else if req.json_response then
    match parse resp.body with
    | some j => Except.ok (resp, Sum.inr j)
    | none => Except.error (CCError.jsonError resp.body)
  else
    Except.ok (resp, Sum.inl resp.body)

/-- Full response path of `concretize_service_request`: handle the
response, then route any `APIError` through the per-service error
parser table. -/
def concretize_service_request {J : Type} (parse : String → Option J)
    (parsers : List (ServiceType × ErrorParser))
    (req : ServiceRequest) (resp : Response) :
    Except CCError (Response × (String ⊕ J)) :=
  match handleResponse parse req resp with
  | Except.error (CCError.apiError c b) =>
      match lookupParser parsers req.service_type with
      | some p =>
          match p c b with
          | some e => Except.error e
          | none => Except.error (CCError.apiError c b)
      | none => Except.error (CCError.apiError c b)
  | r => r

/-! ## Log-spec wrapper (spec §4.6, §8 scenario 6)

Modelled from the spec: `otter.log.spec.split_execute_convergence` and
`get_validated_event` are absent from the source tree.  An
execute-convergence event whose serialized JSON exceeds the cap has the
larger of its `servers` and `lb_nodes` lists removed (then the other,
if the event is still too long); each removed list is materialized as a
follow-up record carrying that one list (and none of the bulky summary
fields `desired`/`steps`), chunked by repeated halving while a single
record still exceeds the cap.  The serialized length is that of
`json.dumps` with its default separators.  A spec that splits an event
into `N ≥ 2` records tags record `i` with `split_message = "i of N"`. -/

/-- JSON values appearing in the events under study: strings and
lists of strings. -/
inductive JVal where
  | jstr (s : String)
  | jlist (xs : List String)
deriving DecidableEq, Repr

/-- Serialized length of a list of strings. -/
def jlistLen (xs : List String) : Nat :=
  2 + ((xs.map (fun s => s.length + 2)).sum + 2 * (xs.length - 1))

/-- Serialized length of a JSON value (`json.dumps` default
separators: `", "` between items, `": "` after keys). -/
def jsonLen : JVal → Nat
  | JVal.jstr s => s.length + 2
  | JVal.jlist xs => jlistLen xs

/-- Serialized length of a JSON object with the given fields. -/
def dictLen (fields : List (String × JVal)) : Nat :=
  2 + ((fields.map (fun f => f.1.length + 4 + jsonLen f.2)).sum
        + 2 * (fields.length - 1))

/-- An execute-convergence log event: generic fields, the bulky summary
fields `desired` and `steps`, and the two bulky lists `servers` and
`lb_nodes` (each possibly absent). -/
structure ECEvent where
  base : List (String × JVal)
  desired : Option JVal := none
  steps : Option JVal := none
  servers : Option (List String) := none
  lb_nodes : Option (List String) := none
deriving DecidableEq, Repr

/-- The fields of an event, as serialized. -/
def ecFields (e : ECEvent) : List (String × JVal) :=
  e.base
    ++ (match e.desired with | some v => [("desired", v)] | none => [])
    ++ (match e.steps with | some v => [("steps", v)] | none => [])
    ++ (match e.servers with | some l => [("servers", JVal.jlist l)] | none => [])
    ++ (match e.lb_nodes with | some l => [("lb_nodes", JVal.jlist l)] | none => [])

/-- Serialized length of an event. -/
def eventLen (e : ECEvent) : Nat := dictLen (ecFields e)

/-- The two bulky list keys. -/
inductive BulkyKey where
  | serversK
  | lbNodesK
deriving DecidableEq, Repr

/-- The list stored under a bulky key, if present. -/
def getBulky (e : ECEvent) : BulkyKey → Option (List String)
  | BulkyKey.serversK => e.servers
  | BulkyKey.lbNodesK => e.lb_nodes

/-- Drop a bulky key from an event. -/
def dropBulky (e : ECEvent) : BulkyKey → ECEvent
  | BulkyKey.serversK => { e with servers := none }
  | BulkyKey.lbNodesK => { e with lb_nodes := none }

/-- The follow-up record for a bulky key holding the given chunk: the
generic fields plus that one list, without `desired`/`steps` and
without the other bulky list. -/
def followupEvent (e : ECEvent) (k : BulkyKey) (chunk : List String) : ECEvent :=
  match k with
  | BulkyKey.serversK => { base := e.base, servers := some chunk }
  | BulkyKey.lbNodesK => { base := e.base, lb_nodes := some chunk }

/-- Chunk a bulky list by repeated halving until each follow-up record
fits the cap (a one-element list is never split further).  Structural
recursion on a fuel bound: each halving strictly shrinks the list, so
`l.length` steps always suffice. -/
def chunkBulkyAux (e : ECEvent) (cap : Nat) (k : BulkyKey) :
    Nat → List String → List ECEvent
  | 0, l => [followupEvent e k l]
  | fuel + 1, l =>
      if eventLen (followupEvent e k l) ≤ cap ∨ l.length ≤ 1 then
        [followupEvent e k l]
      else
        chunkBulkyAux e cap k fuel (l.take (l.length / 2))
          ++ chunkBulkyAux e cap k fuel (l.drop (l.length / 2))

/-- Chunk a bulky list, with enough fuel for every halving. -/
def chunkBulky (e : ECEvent) (cap : Nat) (k : BulkyKey) (l : List String) :
    List ECEvent :=
  chunkBulkyAux e cap k l.length l

/-- Serialized length of a bulky list, counting an absent list as
empty (used only to order the removals, largest first). -/
def bulkyLen (e : ECEvent) (k : BulkyKey) : Nat :=
  match getBulky e k with
  | some l => jlistLen l
  | none => 0

/-- `split_execute_convergence`: if the event fits the cap it is
emitted unchanged; otherwise the larger bulky list is removed, then the
other if the event is still too long, and each removed list yields
chunked follow-up records after the header. -/
def split_execute_convergence (cap : Nat) (e : ECEvent) :
    List (ECEvent × String) :=
  let msg := "Executing convergence"
  if eventLen e ≤ cap then [(e, msg)]
  else
    let order :=
      if bulkyLen e BulkyKey.lbNodesK > bulkyLen e BulkyKey.serversK then
        [BulkyKey.lbNodesK, BulkyKey.serversK]
      else
        [BulkyKey.serversK, BulkyKey.lbNodesK]
    let k1 := order.getD 0 BulkyKey.serversK
    let k2 := order.getD 1 BulkyKey.lbNodesK
    let e1 := dropBulky e k1
    let (header, removed) :=
      if eventLen e1 ≤ cap then (e1, [k1]) else (dropBulky e1 k2, [k1, k2])
    let followups := removed.flatMap (fun k =>
      match getBulky e k with
      | some l => chunkBulky e cap k l
      | none => [])
    (header, msg) :: followups.map (fun f => (f, msg))

/-- A validated log record: the event, its message, the attached
`otter_msg_type` and, for multi-record splits, the `split_message`
tag. -/
structure TaggedRecord where
  event : ECEvent
  message : String
  otter_msg_type : String
  split_message : Option String
deriving DecidableEq, Repr

/-- Event validation of a callable spec's output: attach the message
type, and tag record `i` of an `N ≥ 2`-record split with
`split_message = "i of N"`. -/
def tagSplit (msg_type : String) (records : List (ECEvent × String)) :
    List TaggedRecord :=
  let n := records.length
  records.enum.map (fun p =>
    { event := p.2.1,
      message := p.2.2,
      otter_msg_type := msg_type,
      split_message :=
        if n ≤ 1 then none
        else some (toString (p.1 + 1) ++ " of " ++ toString n) })

/-! ## LB reconciliation and the self-healing scenario (spec §4.3 step 3, §8 scenario 2)

Modelled from the spec: the planner (`otter.convergence.planning`) and
the step executor are absent from the source tree.  Spec §4.3 step 3:
"For every (server, desired LB description) not satisfied by an
existing node owned by that server, emit an add.  For every CLB node
owned-by-autoscale that no longer matches any desired description for
its server (or whose server is being deleted), emit a remove."  A node
is owned by autoscale iff its address matches the private address of a
group server (spec §3); a node not owned by autoscale is never touched
(spec §8, Ownership).  Executing an add makes the provider assign a
fresh node id (CLB bulk-add response carries new ids, spec §6). -/

/-- LB reconciliation steps. -/
inductive LBStep where
  | addNode (lb_id : String) (address : String) (desc : CLBDescription)
  | removeNode (lb_id : String) (node_id : String)
deriving DecidableEq, Repr

/-- All desired descriptions of a server, across its LBs. -/
def desiredDescs (s : NovaServer) : List CLBDescription :=
  s.desired_lbs.flatMap (fun p => p.2)

/-- Adds: one per (server, desired description) with no matching node
at the server's address. -/
def planAdds (servers : List NovaServer) (lb_nodes : List CLBNode) :
    List LBStep :=
  servers.flatMap (fun s =>
    match s.servicenet_address with
    | none => []
    | some addr =>
        (desiredDescs s).filterMap (fun d =>
          if descMet lb_nodes s d then none
          else some (LBStep.addNode d.lb_id addr d)))

/-- Removes: one per autoscale-owned node whose description no longer
matches any desired description of its server.  A node whose address
matches no group server is not owned by autoscale and is never
touched. -/
def planRemoves (servers : List NovaServer) (lb_nodes : List CLBNode) :
    List LBStep :=
  lb_nodes.filterMap (fun n =>
    match servers.find? (fun s => s.servicenet_address == some n.address) with
    | none => none
    | some s =>
        if (desiredDescs s).any (fun d => d == n.description) then none
        else some (LBStep.removeNode n.description.lb_id n.node_id))

/-- The LB part of the plan: adds then removes. -/
def planLB (servers : List NovaServer) (lb_nodes : List CLBNode) :
    List LBStep :=
  planAdds servers lb_nodes ++ planRemoves servers lb_nodes

/-- Provider CLB state: the node list and the counter generating fresh
node ids. -/
structure CLBState where
  nodes : List CLBNode
  counter : Nat
deriving DecidableEq, Repr

/-- Execute one step against the provider: an add appends a node under
a fresh id, a remove deletes the node with the given id. -/
def applyLBStep (st : CLBState) : LBStep → CLBState
  | LBStep.addNode _ addr desc =>
      { nodes := st.nodes ++
          [{ node_id := "node-" ++ toString st.counter,
             description := desc, address := addr }],
        counter := st.counter + 1 }
  | LBStep.removeNode _ nid =>
      { st with nodes := st.nodes.filter (fun n => n.node_id ≠ nid) }

/-- One convergence cycle of LB membership: plan against the observed
nodes, then execute the steps. -/
def convergeLB (servers : List NovaServer) (st : CLBState) : CLBState :=
  (planLB servers st.nodes).foldl applyLBStep st

/-! ## Test fixtures

Concrete inputs taken from the shipped test modules, used to check the
modelled operations against the recorded expectations and to witness
the claim theorems. -/

/-- The description used by `DetermineActiveTests.test_lb_pending`. -/
def lbPendingDesc : CLBDescription := { lb_id := "foo", port := 80 }

/-- The observed node of `test_lb_pending`. -/
def lbPendingNodes : List CLBNode :=
  [{ node_id := "x", description := lbPendingDesc, address := "1.1.1.3" }]

/-- The observed servers of `test_lb_pending`: three ACTIVE servers
wanting the same LB, of which only the third has a node at its
address. -/
def lbPendingServers : List NovaServer :=
  [{ id := "id1", state := ServerState.ACTIVE,
     servicenet_address := some "1.1.1.1",
     desired_lbs := [("foo", [lbPendingDesc])] },
   { id := "id2", state := ServerState.ACTIVE,
     servicenet_address := some "1.1.1.2",
     desired_lbs := [("foo", [lbPendingDesc])] },
   { id := "id3", state := ServerState.ACTIVE,
     servicenet_address := some "1.1.1.3",
     desired_lbs := [("foo", [lbPendingDesc])] }]

/-- The desired attachments of `test_multiple_lb_pending`: two LBs,
two ports each. -/
def multiLBDesired : List (String × List CLBDescription) :=
  [("foo", [{ lb_id := "foo", port := 1 }, { lb_id := "foo", port := 2 }]),
   ("bar", [{ lb_id := "bar", port := 3 }, { lb_id := "bar", port := 4 }])]

/-- The observed nodes of `test_multiple_lb_pending`: all four desired
descriptions are met at address `1.1.1.1`. -/
def multiLBNodes : List CLBNode :=
  [{ node_id := "1", description := { lb_id := "foo", port := 1 }, address := "1.1.1.1" },
   { node_id := "2", description := { lb_id := "foo", port := 2 }, address := "1.1.1.1" },
   { node_id := "3", description := { lb_id := "bar", port := 3 }, address := "1.1.1.1" },
   { node_id := "4", description := { lb_id := "bar", port := 4 }, address := "1.1.1.1" }]

/-- The observed servers of `test_multiple_lb_pending`. -/
def multiLBServers : List NovaServer :=
  [{ id := "id1", state := ServerState.ACTIVE,
     servicenet_address := some "1.1.1.1", desired_lbs := multiLBDesired },
   { id := "id2", state := ServerState.ACTIVE,
     servicenet_address := some "1.1.1.2", desired_lbs := multiLBDesired }]

/-- Cross-check against `test_lb_pending`: only the third server is
active. -/
theorem determine_active_lb_pending_check :
    determine_active lbPendingServers lbPendingNodes =
      lbPendingServers.drop 2 := by decide

/-- Cross-check against `test_multiple_lb_pending`: the server on all
four nodes is returned once; the other is not returned. -/
theorem determine_active_multiple_lb_check :
    determine_active multiLBServers multiLBNodes =
      multiLBServers.take 1 := by decide

/-! ## Claim theorems -/

/-- C1: `determine_active` returns exactly the observed servers that
are in provider state ACTIVE and have, for every desired LB
description, a matching observed CLB node at their servicenet address;
since the result is a sublist filter of the input, a server needing
several LBs appears in it no more often than in the input, hence at
most once when the input lists each server once. -/
theorem determine_active_characterization (servers : List NovaServer)
    (lb_nodes : List CLBNode) :
    (∀ s : NovaServer, s ∈ determine_active servers lb_nodes ↔
      s ∈ servers ∧ s.state = ServerState.ACTIVE ∧
        ∀ d ∈ desiredDescs s, ∃ n ∈ lb_nodes,
          s.servicenet_address = some n.address ∧ d = n.description) ∧
    (servers.Nodup → (determine_active servers lb_nodes).Nodup) := by
  constructor
  · intro s
    simp only [determine_active, List.mem_filter, Bool.and_eq_true,
      beq_iff_eq, List.all_eq_true, descMet, List.any_eq_true,
      desiredDescs, List.mem_flatMap]
    constructor
    · rintro ⟨hmem, hact, hall⟩
      refine ⟨hmem, hact, ?_⟩
      rintro d ⟨p, hp, hd⟩
      obtain ⟨n, hn, h1, h2⟩ := hall p hp d hd
      exact ⟨n, hn, h1, h2⟩
    · rintro ⟨hmem, hact, hall⟩
      refine ⟨hmem, hact, ?_⟩
      intro p hp d hd
      obtain ⟨n, hn, h1, h2⟩ := hall d ⟨p, hp, hd⟩
      exact ⟨n, hn, h1, h2⟩
  · exact fun h => h.filter _

/-- Witness for C1 at the `test_lb_pending` fixture: the result is
duplicate-free, and the third server is in it because its one desired
description is met by the observed node. -/
theorem determine_active_characterization_witness :
    (determine_active lbPendingServers lbPendingNodes).Nodup ∧
    ({ id := "id3", state := ServerState.ACTIVE,
       servicenet_address := some "1.1.1.3",
       desired_lbs := [("foo", [lbPendingDesc])] } : NovaServer) ∈
      determine_active lbPendingServers lbPendingNodes :=
  ⟨(determine_active_characterization lbPendingServers lbPendingNodes).2
      (by decide),
   ((determine_active_characterization lbPendingServers lbPendingNodes).1
      _).mpr (by decide)⟩

/-- C4: when the key is already in the lock set, `non_concurrently`
returns `None` at once, logs `already-converging`, leaves the lock set
unchanged, and never performs the wrapped effect (the outcome is the
same for every effect). -/
theorem non_concurrently_refuses_already_held {α : Type}
    (locks : List String) (key : String)
    (eff : List String → Except Exn α) (h : key ∈ locks) :
    non_concurrently locks key eff =
      (locks, ["already-converging"], Except.ok none) ∧
    ∀ eff' : List String → Except Exn α,
      non_concurrently locks key eff = non_concurrently locks key eff' := by
  unfold non_concurrently
  rw [if_pos h]
  exact ⟨rfl, fun eff' => by rw [if_pos h]⟩

/-- Witness for C4 at the `test_refuses_concurrency` fixture: key
`the-key` already locked, wrapped effect a failing one; the call is a
logged no-op. -/
theorem non_concurrently_refuses_already_held_witness :
    non_concurrently ["the-key"] "the-key"
        (fun _ => (Except.error (Exn.runtimeError "foo") : Except Exn String)) =
      (["the-key"], ["already-converging"], Except.ok none) :=
  (non_concurrently_refuses_already_held ["the-key"] "the-key"
      (fun _ => Except.error (Exn.runtimeError "foo")) (by decide)).1

/-- C10: when the key is not already held, `non_concurrently` runs the
wrapped effect with the key added to the lock set, restores the lock
set afterwards in all cases, logs nothing, returns the effect's result
on success and propagates the effect's own exception on failure. -/
theorem non_concurrently_releases_lock {α : Type}
    (locks : List String) (key : String)
    (eff : List String → Except Exn α) (h : key ∉ locks) :
    (non_concurrently locks key eff).1 = locks ∧
    (non_concurrently locks key eff).2.1 = [] ∧
    (non_concurrently locks key eff).2.2 =
      (eff (key :: locks)).map some := by
  simp only [non_concurrently, if_neg h]
  cases h' : eff (key :: locks) with
  | ok a => simp [h', Except.map, List.erase_cons_head]
  | error e => simp [h', Except.map, List.erase_cons_head]

/-- Witness for C10 at the `test_success` and
`test_cleans_up_on_exception` fixtures: an effect that observes the
key held while it runs succeeds with its value; a failing effect's
exception propagates; the lock set is empty again in both cases. -/
theorem non_concurrently_releases_lock_witness :
    (non_concurrently [] "the-key"
        (fun l => if "the-key" ∈ l then Except.ok "foo"
                  else (Except.error (Exn.other "lock-not-held") :
                          Except Exn String))).1 = [] ∧
    (non_concurrently [] "the-key"
        (fun l => if "the-key" ∈ l then Except.ok "foo"
                  else Except.error (Exn.other "lock-not-held"))).2.2 =
      Except.ok (some "foo") ∧
    (non_concurrently [] "the-key"
        (fun _ => (Except.error (Exn.runtimeError "foo!") :
                     Except Exn String))).2.2 =
      Except.error (Exn.runtimeError "foo!") := by
  refine ⟨(non_concurrently_releases_lock [] "the-key" _ (by decide)).1,
    Eq.trans
      ((non_concurrently_releases_lock [] "the-key" _ (by decide)).2.2)
      (by rfl),
    Eq.trans
      ((non_concurrently_releases_lock [] "the-key" _ (by decide)).2.2)
      (by rfl)⟩

/-- C3: if the `GetScalingGroupInfo` effect gathered inside
`execute_convergence` fails with an exception, the convergence effect
fails with that very exception — the `FirstError` wrapper that
`parallel` produces is stripped — and in particular the failure is
never a `FirstError`. -/
theorem execute_convergence_unwraps_first_error
    {GroupInfo Step StepResult : Type}
    (plan : GroupInfo → List NovaServer → List CLBNode → List Step)
    (execStep : Step → Except Exn StepResult)
    (gacd : Except Exn (List NovaServer × List CLBNode)) (msg : String) :
    execute_convergence plan execStep
        (Except.error (Exn.runtimeError msg)) gacd =
      Except.error (Exn.runtimeError msg) ∧
    ∀ e : Exn,
      execute_convergence plan execStep
          (Except.error (Exn.runtimeError msg)) gacd ≠
        Except.error (Exn.firstError e) := by
  have h : execute_convergence plan execStep
      (Except.error (Exn.runtimeError msg)) gacd =
      Except.error (Exn.runtimeError msg) := rfl
  refine ⟨h, fun e hc => ?_⟩
  rw [h] at hc
  simp at hc

/-- C5: when planning yields no steps, `execute_convergence` still
writes the active map derived from the observed servers (each active
server's id mapped to its compact server JSON) and succeeds with an
empty result list. -/
theorem execute_convergence_no_steps_updates_active
    {GroupInfo Step StepResult : Type}
    (plan : GroupInfo → List NovaServer → List CLBNode → List Step)
    (execStep : Step → Except Exn StepResult) (gi : GroupInfo)
    (servers : List NovaServer) (lb_nodes : List CLBNode)
    (h : plan gi servers lb_nodes = []) :
    execute_convergence plan execStep (Except.ok gi)
        (Except.ok (servers, lb_nodes)) =
      Except.ok (([] : List StepResult), activeMapOf servers lb_nodes) := by
  simp [execute_convergence, parallelPair, h, parallelList]

/-- The first observed server of `ExecuteConvergenceTests`, with its
desired LBs cleared as `test_no_steps` does. -/
def ecServerA : NovaServer :=
  { id := "a", state := ServerState.ACTIVE,
    servicenet_address := some "10.0.0.1" }

/-- The second observed server of `ExecuteConvergenceTests`, with its
desired LBs cleared as `test_no_steps` does. -/
def ecServerB : NovaServer :=
  { id := "b", state := ServerState.ACTIVE,
    servicenet_address := some "10.0.0.2" }

/-- Witness for C5 at the `test_no_steps` fixture: two ACTIVE observed
servers, a planner returning no steps; the run succeeds with `[]` and
the active map `{a ↦ {id: a}, b ↦ {id: b}}`. -/
theorem execute_convergence_no_steps_updates_active_witness :
    execute_convergence (fun (_ : Unit) _ _ => ([] : List Unit))
        (fun _ => (Except.ok "stuff" : Except Exn String)) (Except.ok ())
        (Except.ok ([ecServerA, ecServerB], [])) =
      Except.ok ([], [("a", server_to_json ecServerA),
                      ("b", server_to_json ecServerB)]) := by
  rw [execute_convergence_no_steps_updates_active _ _ _ _ _ rfl]
  rfl

/-- A response whose status is in the reauth codes or fails the
success predicate makes the raw effect fail as `APIError` with the raw
body. -/
theorem handleResponse_apiError {J : Type} (parse : String → Option J)
    (req : ServiceRequest) (resp : Response)
    (h : resp.code ∈ req.reauth_codes ∨ req.success_pred resp.code = false) :
    handleResponse parse req resp =
      Except.error (CCError.apiError resp.code resp.body) := by
  by_cases hm : resp.code ∈ req.reauth_codes
  · simp [handleResponse, hm]
  · have h2 : req.success_pred resp.code = false := h.resolve_left hm
    simp [handleResponse, hm, h2]

/-- C6: a response outside the reauth codes that fails the success
predicate makes the effect fail with `APIError` carrying the raw
response body, for every JSON parser and every request (in particular
for either value of `json_response`): no JSON parsing of the body is
attempted on the error path. -/
theorem service_request_failure_carries_raw_body {J : Type}
    (parse : String → Option J) (req : ServiceRequest) (resp : Response)
    (h1 : resp.code ∉ req.reauth_codes)
    (h2 : req.success_pred resp.code = false) :
    concretize_service_request parse [] req resp =
      Except.error (CCError.apiError resp.code resp.body) := by
  simp [concretize_service_request, handleResponse, h1, h2, lookupParser]

/-- The default request of `PerformServiceRequestTests` (service type
CLOUD_SERVERS, `json_response` true, success predicate
`has_code(200)`). -/
def reqServers : ServiceRequest :=
  { service_type := ServiceType.CLOUD_SERVERS, method := "GET",
    url := "servers" }

/-- Witness for C6 at the `test_no_json_parsing_on_error` fixture: a
500 response with a non-JSON body fails as `APIError` carrying that
body verbatim, although `json_response` is true. -/
theorem service_request_failure_carries_raw_body_witness :
    concretize_service_request (fun _ => (none : Option Nat)) [] reqServers
        { code := 500, body := "THIS IS A FAILURE" } =
      Except.error (CCError.apiError 500 "THIS IS A FAILURE") :=
  service_request_failure_carries_raw_body _ reqServers _ (by decide) rfl

/-- C7: when a service request fails with `APIError` and an
error-parser table is supplied, the parser registered for the
request's service type is consulted: if it raises, its exception
propagates; if it returns without raising, or no parser is registered
for that service type, the original `APIError` is raised. -/
theorem service_request_error_parser_consulted {J : Type}
    (parse : String → Option J)
    (parsers : List (ServiceType × ErrorParser))
    (req : ServiceRequest) (resp : Response)
    (h : resp.code ∈ req.reauth_codes ∨ req.success_pred resp.code = false) :
    (∀ p : ErrorParser, lookupParser parsers req.service_type = some p →
      (∀ e : CCError, p resp.code resp.body = some e →
        concretize_service_request parse parsers req resp =
          Except.error e) ∧
      (p resp.code resp.body = none →
        concretize_service_request parse parsers req resp =
          Except.error (CCError.apiError resp.code resp.body))) ∧
    (lookupParser parsers req.service_type = none →
      concretize_service_request parse parsers req resp =
        Except.error (CCError.apiError resp.code resp.body)) := by
  have hr := handleResponse_apiError parse req resp h
  refine ⟨fun p hp => ⟨fun e he => ?_, fun he => ?_⟩, fun hp => ?_⟩
  · simp [concretize_service_request, hr, hp, he]
  · simp [concretize_service_request, hr, hp, he]
  · simp [concretize_service_request, hr, hp]

/-- The CLOUD_SERVERS request of the error-parsing tests. -/
def reqAthingServers : ServiceRequest :=
  { service_type := ServiceType.CLOUD_SERVERS, method := "GET",
    url := "athing" }

/-- The CLOUD_LOAD_BALANCERS request of the error-parsing tests. -/
def reqAthingCLB : ServiceRequest :=
  { service_type := ServiceType.CLOUD_LOAD_BALANCERS, method := "GET",
    url := "athing" }

/-- The tests' `_NovaError`-raising parser. -/
def novaParser : ErrorParser := fun _ _ => some (CCError.exn "NovaError")

/-- The tests' parser that returns without raising. -/
def nullParser : ErrorParser := fun _ _ => none

/-- Witness for C7 at the error-parsing fixtures: a 400 response with
body `FOO` raises `_NovaError` through the registered parser, raises
the original `APIError` when no parser is registered for the service
type, and raises the original `APIError` when the parser returns
without raising. -/
theorem service_request_error_parser_consulted_witness :
    concretize_service_request (fun _ => (none : Option Nat))
        [(ServiceType.CLOUD_SERVERS, novaParser)] reqAthingServers
        { code := 400, body := "FOO" } =
      Except.error (CCError.exn "NovaError") ∧
    concretize_service_request (fun _ => (none : Option Nat))
        [(ServiceType.CLOUD_SERVERS, novaParser)] reqAthingCLB
        { code := 400, body := "FOO" } =
      Except.error (CCError.apiError 400 "FOO") ∧
    concretize_service_request (fun _ => (none : Option Nat))
        [(ServiceType.CLOUD_SERVERS, nullParser)] reqAthingServers
        { code := 400, body := "FOO" } =
      Except.error (CCError.apiError 400 "FOO") :=
  ⟨((service_request_error_parser_consulted (fun _ => (none : Option Nat))
        [(ServiceType.CLOUD_SERVERS, novaParser)] reqAthingServers
        { code := 400, body := "FOO" } (Or.inr rfl)).1 novaParser rfl).1 _ rfl,
   (service_request_error_parser_consulted (fun _ => (none : Option Nat))
        [(ServiceType.CLOUD_SERVERS, novaParser)] reqAthingCLB
        { code := 400, body := "FOO" } (Or.inr rfl)).2 rfl,
   ((service_request_error_parser_consulted (fun _ => (none : Option Nat))
        [(ServiceType.CLOUD_SERVERS, nullParser)] reqAthingServers
        { code := 400, body := "FOO" } (Or.inr rfl)).1 nullParser rfl).2 rfl⟩

/-- The execute-convergence event of
`test_split_servers_into_multiple_if_servers_too_long`:
`servers=["0","1","2","3","4"]`, `lb_nodes=[]`, one summary field. -/
def ecSplitEvent : ECEvent :=
  { base := [("hi", JVal.jstr "there")],
    servers := some ["0", "1", "2", "3", "4"],
    lb_nodes := some [] }

/-- The cap of that test: the serialized length of the event holding
only two servers, so only two servers fit per record. -/
def ecSplitCap : Nat :=
  eventLen { base := [("hi", JVal.jstr "there")], servers := some ["0", "1"] }

/-- C8: at the `test_split_servers_into_multiple_if_servers_too_long`
fixture the splitter emits one header record with no bulky list (the
empty `lb_nodes` list stays in the header), followed by three records
holding two, one and two servers respectively; validating that
four-record split tags record `i` with `split_message = "i of 4"`. -/
theorem split_execute_convergence_scenario :
    split_execute_convergence ecSplitCap ecSplitEvent =
      [({ base := [("hi", JVal.jstr "there")], lb_nodes := some [] },
        "Executing convergence"),
       ({ base := [("hi", JVal.jstr "there")], servers := some ["0", "1"] },
        "Executing convergence"),
       ({ base := [("hi", JVal.jstr "there")], servers := some ["2"] },
        "Executing convergence"),
       ({ base := [("hi", JVal.jstr "there")], servers := some ["3", "4"] },
        "Executing convergence")] ∧
    tagSplit "execute-convergence"
        (split_execute_convergence ecSplitCap ecSplitEvent) =
      [{ event := { base := [("hi", JVal.jstr "there")], lb_nodes := some [] },
         message := "Executing convergence",
         otter_msg_type := "execute-convergence",
         split_message := some "1 of 4" },
       { event := { base := [("hi", JVal.jstr "there")],
                    servers := some ["0", "1"] },
         message := "Executing convergence",
         otter_msg_type := "execute-convergence",
         split_message := some "2 of 4" },
       { event := { base := [("hi", JVal.jstr "there")],
                    servers := some ["2"] },
         message := "Executing convergence",
         otter_msg_type := "execute-convergence",
         split_message := some "3 of 4" },
       { event := { base := [("hi", JVal.jstr "there")],
                    servers := some ["3", "4"] },
         message := "Executing convergence",
         otter_msg_type := "execute-convergence",
         split_message := some "4 of 4" }] := by
  decide

/-- The autoscaled server's one desired attachment in the
`test_only_autoscale_nodes_are_modified` scenario. -/
def clbDescC : CLBDescription := { lb_id := "1", port := 80 }

/-- The scaling group's server in that scenario. -/
def serverC : NovaServer :=
  { id := "c", state := ServerState.ACTIVE,
    servicenet_address := some "10.0.0.1",
    desired_lbs := [("1", [clbDescC])] }

/-- The description of the two pre-existing non-autoscale nodes
(added out of band on port 8080). -/
def nonASDesc : CLBDescription := { lb_id := "1", port := 8080 }

/-- The pre-existing non-autoscale node that is deleted out of band. -/
def nodeA : CLBNode :=
  { node_id := "a1", description := nonASDesc, address := "10.0.0.101" }

/-- The pre-existing non-autoscale node that is left alone. -/
def nodeB : CLBNode :=
  { node_id := "b1", description := nonASDesc, address := "10.0.0.102" }

/-- The autoscale node the first convergence adds for `serverC`. -/
def nodeC : CLBNode :=
  { node_id := "node-0", description := clbDescC, address := "10.0.0.1" }

/-- The replacement node the self-healing convergence re-adds, under a
fresh provider-assigned id. -/
def nodeC2 : CLBNode :=
  { node_id := "node-1", description := clbDescC, address := "10.0.0.1" }

/-- C9: starting from the CLB holding the non-autoscale nodes `A` and
`B`, convergence adds the group's node `C` and touches nothing else;
after `A` and `C` are deleted out of band, convergence leaves exactly
`{B, C'}`: `A` is not re-added, `B` is byte-identical to its original
entry, and `C'` carries `C`'s address and description (port, weight,
type, condition) under a different node id. -/
theorem convergence_touches_only_autoscale_nodes :
    convergeLB [serverC] { nodes := [nodeA, nodeB], counter := 0 } =
      { nodes := [nodeA, nodeB, nodeC], counter := 1 } ∧
    convergeLB [serverC] { nodes := [nodeB], counter := 1 } =
      { nodes := [nodeB, nodeC2], counter := 2 } ∧
    nodeC2.address = nodeC.address ∧
    nodeC2.description = nodeC.description ∧
    nodeC2.node_id ≠ nodeC.node_id ∧
    nodeA ∉ (convergeLB [serverC] { nodes := [nodeB], counter := 1 }).nodes ∧
    nodeB ∈ (convergeLB [serverC] { nodes := [nodeB], counter := 1 }).nodes := by
  decide

/-- The two records named by C2's concrete example. -/
def expectedDivergent : List DivergentGroup :=
  [{ tenant_id := "00", group_id := "gr1", version := 0 },
   { tenant_id := "00", group_id := "gr2", version := 3 }]

set_option maxRecDepth 20000 in
/-- C2 counterexample: with the bucket index computed from
`tenant_id + group_id` as the claim words it (`sha1("00gr1") mod 10 =
2`, `sha1("00gr2") mod 10 = 3`), the listing
`{00_gr1@v0, 00_gr2@v3, 01_gr3@v5}` with buckets `[6]` selects no
entry at all — contradicting the output the claim itself requires,
which the tenant-only bucket (`sha1("00") mod 10 = 6`) produces. -/
theorem get_my_divergent_groups_claim_refuted :
    get_my_divergent_groups_claim [6] testChildren = [] ∧
    get_my_divergent_groups_claim [6] testChildren ≠
      get_my_divergent_groups [6] testChildren := by
  decide

set_option maxRecDepth 20000 in
/-- C2 (amended): `get_my_divergent_groups` returns exactly the listed
entries whose bucket index, computed as `hash(tenant_id) mod 10` (the
tenant id alone), lies in the given bucket set, each as a record
carrying the read version, in listing order; on the concrete listing
`{00_gr1@v0, 00_gr2@v3}` with buckets `[6]` that is the claim's stated
output. -/
theorem get_my_divergent_groups_tenant_bucket :
    get_my_divergent_groups [6] testChildren = expectedDivergent ∧
    ∀ (buckets : List Nat) (children : List (String × Nat)),
      get_my_divergent_groups buckets children =
        (children.filter
            (fun c => bucket_of (splitChild c.1).1 ∈ buckets)).map
          childInfo := by
  constructor
  · decide
  · intro buckets children
    induction children with
    | nil => rfl
    | cons c cs ih =>
        simp only [get_my_divergent_groups, List.map_cons, List.filter_cons]
          at ih ⊢
        by_cases hb : bucket_of (splitChild c.1).1 ∈ buckets
        · simp only [childInfo, decide_eq_true hb, if_true]
          simpa [get_my_divergent_groups, childInfo] using
            congrArg (List.cons (childInfo c)) ih
        · simp only [childInfo, decide_eq_false hb, if_false]
          simpa [get_my_divergent_groups, childInfo] using ih

end Otter
